import Mathlib

/-!
# Verification of `element-scroller` (`src/index.ts`)

A shallow embedding of the scrolling engine from `element-scroller`.
JavaScript numbers are modelled as exact rationals (`ℚ`); the mutable
per-instance closure state of `makeScroller` is modelled as an explicit
`ScrollerState` record threaded through pure step functions.  The DOM
element's scroll offsets (`element.scrollLeft` / `element.scrollTop`) are
carried in the state as `elementPos`; the scrollable lengths
(`scrollWidth - clientWidth`, `scrollHeight - clientHeight`) are read fresh
from the environment on each call that needs them, so they are passed as a
`ScrollLength` argument to `render` and `scrollTo`.
-/

namespace ElementScroller

/-- `const clamp = (bottom, value, top) => max(bottom, min(top, value))` -/
def clamp (bottom value top : ℚ) : ℚ := max bottom (min top value)

/-- `const isWithin = (min, value, max) => value >= min && value <= max` -/
def isWithin (lo value hi : ℚ) : Prop := value ≥ lo ∧ value ≤ hi

instance (lo value hi : ℚ) : Decidable (isWithin lo value hi) := by
  unfold isWithin; infer_instance

/-- `const STANDARD_FRAME_TIME = 1000 / 60` -/
def STANDARD_FRAME_TIME : ℚ := 1000 / 60

/-- `interface Position {left: number; top: number}` -/
structure Position where
  left : ℚ
  top : ℚ
  deriving DecidableEq, Repr

/-- `interface ScrollLength {width: number; height: number}`:
`width = element.scrollWidth - element.clientWidth` and likewise for
`height`, as computed by `getScrollLength`. -/
structure ScrollLength where
  width : ℚ
  height : ℚ
  deriving DecidableEq, Repr

/-- A scroll coordinate passed to `scrollTo`: a finite number, or the
JavaScript `Infinity` / `-Infinity` values the code supports ("use
`Infinity` to scroll to the end"). -/
inductive Coord where
  | val (q : ℚ)
  | posInf
  | negInf
  deriving DecidableEq, Repr

/-- `clamp(0, coordinate, len)` for a possibly-infinite coordinate:
`min(len, Infinity) = len` and `min(len, -Infinity) = -Infinity`, so the
infinities clamp to the end resp. the start of the axis. -/
def clampCoord (bottom : ℚ) (c : Coord) (top : ℚ) : ℚ :=
  match c with
  | .val q => clamp bottom q top
  | .posInf => max bottom top
  | .negInf => bottom

/-- The mutable state captured by `makeScroller`'s closure, together with
the element's own scroll offsets (`elementPos`).  `frameId` abstracts the
`requestAnimationFrame` id to "a frame is pending"; `friction` is the
animation-local `let friction` variable, `selfFriction` is the public
`self.friction` option. -/
structure ScrollerState where
  selfFriction : ℚ
  flipWheel : Bool
  wheelFriction : ℚ
  disposed : Bool
  friction : ℚ
  currentPosition : Position
  elementPos : Position
  scrolling : Option (ℚ × ℚ)
  gliding : Option (ℚ × ℚ)
  frameId : Bool
  lastFrameTime : Option ℚ
  deriving DecidableEq, Repr

/-- `makeScroller`'s initial closure state: `friction = self.friction`,
`currentPosition = getPosition()` (the element's offsets), no motion, no
pending frame, not disposed. -/
def initialState (frictionOption : Option ℚ) (flipWheel : Bool)
    (wheelFriction : Option ℚ) (elementPos : Position) : ScrollerState :=
  { selfFriction := frictionOption.getD (2 / 10)
    flipWheel := flipWheel
    wheelFriction := wheelFriction.getD (25 / 100)
    disposed := false
    friction := frictionOption.getD (2 / 10)
    currentPosition := elementPos
    elementPos := elementPos
    scrolling := none
    gliding := none
    frameId := false
    lastFrameTime := none }

/-- `setPosition`: caches the position and writes it to the element. -/
def setPosition (s : ScrollerState) (position : Position) : ScrollerState :=
  { s with currentPosition := position, elementPos := position }

/-- `requestRender`: `if (!frameId) frameId = requestAnimationFrame(render)`. -/
def requestRender (s : ScrollerState) : ScrollerState :=
  if s.frameId then s else { s with frameId := true }

/-- One invocation of `render(time)`.  `len` is what `getScrollLength()`
returns at this frame and `minFrameTime` is the module-global minimal
frame time used as the fallback delta on the first frame of a run. -/
def render (len : ScrollLength) (minFrameTime time : ℚ) (s : ScrollerState) :
    ScrollerState :=
  if s.disposed then s else
  let timeDelta :=
    match s.lastFrameTime with
    | some t => time - t
    | none => minFrameTime
  let left := s.currentPosition.left
  let top := s.currentPosition.top
  let width := len.width
  let height := len.height
  -- Scrolling
  let scrollPart : Option (ℚ × ℚ) × ℚ × ℚ :=
    match s.scrolling with
    | some (x, y) =>
      let standardFrameTimeDeviation := timeDelta / STANDARD_FRAME_TIME
      let adjustedFriction := clamp 0 (s.friction * standardFrameTimeDeviation) 1
      let xDelta := x * adjustedFriction
      let yDelta := y * adjustedFriction
      let sx := if |xDelta| < 2 / 10 ∨ ¬ isWithin 0 (left + xDelta) width then 0
                else x - xDelta
      let sy := if |yDelta| < 2 / 10 ∨ ¬ isWithin 0 (top + yDelta) height then 0
                else y - yDelta
      (if sx = 0 ∧ sy = 0 then none else some (sx, sy), xDelta, yDelta)
    | none => (none, 0, 0)
  let scrolling := scrollPart.1
  -- Gliding
  let glidePart : ℚ × ℚ :=
    match s.gliding with
    | some (gx, gy) =>
      let secondFraction := timeDelta / 1000
      (scrollPart.2.1 + gx * secondFraction, scrollPart.2.2 + gy * secondFraction)
    | none => (scrollPart.2.1, scrollPart.2.2)
  let leftBy := glidePart.1
  let topBy := glidePart.2
  let s1 := setPosition s ⟨clamp 0 (left + leftBy) width, clamp 0 (top + topBy) height⟩
  if s1.gliding.isSome ∨ scrolling.isSome then
    { s1 with scrolling := scrolling, lastFrameTime := some time, frameId := true }
  else
    { s1 with scrolling := scrolling, lastFrameTime := none, frameId := false }

/-- The per-axis velocity update applied by `render` to an active
scrolling motion (lines 160–161 of `index.ts`): the axis velocity becomes
`0` when `|delta| < 0.2` or when `position + delta` leaves `[0, length]`,
and `velocity - delta` otherwise. -/
def axisVelocityUpdate (x delta pos length : ℚ) : ℚ :=
  if |delta| < 2 / 10 ∨ ¬ isWithin 0 (pos + delta) length then 0 else x - delta

/-- The argument record of `scrollBy` (`Partial<Position> & {friction?: number}`);
`none` models an absent property. -/
structure ScrollByOptions where
  left : Option ℚ := none
  top : Option ℚ := none
  friction : Option ℚ := none
  deriving DecidableEq, Repr

/-- `scrollBy({left = 0, top = 0, ...rest})`: `friction = rest.friction ||
self.friction` (note `||`: a falsy `0` falls back to the default), velocity
deltas are added onto any pending scrolling velocity, and a frame is
requested. -/
def scrollBy (o : ScrollByOptions) (s : ScrollerState) : ScrollerState :=
  let left := o.left.getD 0
  let top := o.top.getD 0
  let friction :=
    match o.friction with
    | some f => if f = 0 then s.selfFriction else f
    | none => s.selfFriction
  let sx := (s.scrolling.map Prod.fst).getD 0
  let sy := (s.scrolling.map Prod.snd).getD 0
  requestRender
    { s with friction := friction, scrolling := some (sx + left, sy + top) }

/-- The argument record of `scrollTo`; coordinates may be `Infinity`. -/
structure ScrollToOptions where
  left : Option Coord := none
  top : Option Coord := none
  friction : Option ℚ := none
  deriving DecidableEq, Repr

/-- `scrollTo({left, top, ...rest})`: delegates to `scrollBy` with per-axis
deltas `clamp(0, target, len) - (currentPosition + (scrolling?.[axis] || 0))`,
or `0` for an omitted axis. -/
def scrollTo (o : ScrollToOptions) (len : ScrollLength) (s : ScrollerState) :
    ScrollerState :=
  scrollBy
    { left := some (match o.left with
        | none => 0
        | some c => clampCoord 0 c len.width -
            (s.currentPosition.left + (s.scrolling.map Prod.fst).getD 0))
      top := some (match o.top with
        | none => 0
        | some c => clampCoord 0 c len.height -
            (s.currentPosition.top + (s.scrolling.map Prod.snd).getD 0))
      friction := o.friction } s

/-- The argument record of `glide`. -/
structure GlideOptions where
  left : Option ℚ := none
  top : Option ℚ := none
  deriving DecidableEq, Repr

/-- `glide({top, left})`: `gliding = [left || 0, top || 0]` (an absent axis
becomes `0`) and a frame is requested. -/
def glide (o : GlideOptions) (s : ScrollerState) : ScrollerState :=
  requestRender { s with gliding := some (o.left.getD 0, o.top.getD 0) }

/-- `stop()`: cancels the pending frame and clears
`frameId`, `lastFrameTime`, `gliding` and `scrolling`. -/
def stop (s : ScrollerState) : ScrollerState :=
  { s with frameId := false, lastFrameTime := none, gliding := none,
           scrolling := none }

/-- `dispose()`: `stop()`, mark disposed, unbind listeners (the trailing
`if (frameId) cancelAnimationFrame(frameId)` is vacuous since `stop` just
cleared `frameId`). -/
def dispose (s : ScrollerState) : ScrollerState :=
  { stop s with disposed := true }

/-- `handleWheel(event)`: `now` is `Date.now()` at the event,
`lastGlobalWheel` the module-global timestamp of the last wheel event not
attributed to this engine, `deltaX`/`deltaY` the event's deltas.  Returns
the new state and whether the event was intercepted
(`event.preventDefault()` called). -/
def handleWheel (now lastGlobalWheel deltaX deltaY : ℚ) (s : ScrollerState) :
    ScrollerState × Bool :=
  if now - lastGlobalWheel < 300 then (s, false)
  else
    (scrollBy
      (if s.flipWheel then
        { left := some deltaY, top := some deltaX, friction := some s.wheelFriction }
      else
        { left := some deltaX, top := some deltaY, friction := some s.wheelFriction })
      s, true)

/-- The window-level `wheel` listener composed with `handleWheel`: when the
element handler intercepts the event it sets `ignoreEvent`, so the global
listener leaves `lastGlobalWheel` unchanged; otherwise the event updates
`lastGlobalWheel` to `now`.  Returns (state, intercepted, new
`lastGlobalWheel`). -/
def processWheelEvent (now lastGlobalWheel deltaX deltaY : ℚ)
    (s : ScrollerState) : ScrollerState × Bool × ℚ :=
  let r := handleWheel now lastGlobalWheel deltaX deltaY s
  (r.1, r.2, if r.2 then lastGlobalWheel else now)

/-- `handleScroll()`: `if (!frameId) currentPosition = getPosition()`;
`live` is the element's live scroll offset at the event. -/
def handleScroll (live : Position) (s : ScrollerState) : ScrollerState :=
  if s.frameId then s else { s with currentPosition := live }

/-- One simulated animation tick: the host delivers a frame callback at
time `time` only when one was requested.  `minFrameTime` is fixed to
`STANDARD_FRAME_TIME` (frames arrive at the standard rate). -/
def stepOnce (len : ScrollLength) (time : ℚ) (s : ScrollerState) :
    ScrollerState :=
  if s.frameId then render len STANDARD_FRAME_TIME time s else s

/-- `simulate len t0 n s`: run `n` simulated frames at times
`t0, t0 + Δ, …` with `Δ = STANDARD_FRAME_TIME`. -/
def simulate (len : ScrollLength) (t0 : ℚ) : ℕ → ScrollerState → ScrollerState
  | 0, s => s
  | n + 1, s =>
      stepOnce len (t0 + n * STANDARD_FRAME_TIME) (simulate len t0 n s)

/-- Invariant of the decay of a lone scrolling motion under simulated
standard-rate frames: the scroller is live, has no glide, runs with
in-effect friction `f`, and its scrolling motion is either cleared or
pending with per-axis magnitude at most `|initial| * (1 - f) ^ n`, a frame
pending, and a frame timestamp consistent with the next frame time `t`. -/
def decayInv (f dx dy t : ℚ) (n : ℕ) (s : ScrollerState) : Prop :=
  s.disposed = false ∧ s.gliding = none ∧ s.friction = f ∧
  (s.scrolling = none ∨
    ∃ x y, s.scrolling = some (x, y) ∧ s.frameId = true ∧
      (s.lastFrameTime = none ∨
       s.lastFrameTime = some (t - STANDARD_FRAME_TIME)) ∧
      |x| ≤ |dx| * (1 - f) ^ n ∧ |y| ≤ |dy| * (1 - f) ^ n)

/-! ### Concrete states used to instantiate theorems -/

/-- A scroller mid-scroll: instance friction `1/5`, an overriding in-effect
friction `1/2`, a pending horizontal scrolling velocity of `100`, a frame
pending, one frame already rendered at time `0`. -/
def midScrollState : ScrollerState :=
  { selfFriction := 1 / 5
    flipWheel := false
    wheelFriction := 1 / 4
    disposed := false
    friction := 1 / 2
    currentPosition := ⟨40, 10⟩
    elementPos := ⟨40, 10⟩
    scrolling := some (100, 0)
    gliding := none
    frameId := true
    lastFrameTime := some 0 }

/-- A freshly made scroller (friction `1/2`) on a surface at the origin. -/
def freshHalf : ScrollerState := initialState (some (1 / 2)) false none ⟨0, 0⟩

/-- `scrollTo({left: 300})` then `scrollTo({left: 500})` on `freshHalf`,
scrollable width `1000`. -/
def twoScrollTos : ScrollerState :=
  scrollTo { left := some (.val 500) } ⟨1000, 0⟩
    (scrollTo { left := some (.val 300) } ⟨1000, 0⟩ freshHalf)

/-- `scrollTo({left: Infinity})` on a fresh friction-`1/2` scroller with
scrollable width `10`. -/
def scrollToInf : ScrollerState :=
  scrollTo { left := some .posInf } ⟨10, 0⟩ (initialState (some (1 / 2)) false none ⟨0, 0⟩)

/-- `scrollBy({left: 100})` on a scroller constructed with `friction: 0`. -/
def frictionZeroScroll : ScrollerState :=
  scrollBy { left := some 100 } (initialState (some 0) false none ⟨0, 0⟩)

/-- An active horizontal glide: `glide({left: 30})` on a fresh scroller. -/
def horizontalGlide : ScrollerState :=
  glide { left := some 30 } (initialState none false none ⟨0, 0⟩)

/-- A disposed scroller that still has a frame pending (the frame was
scheduled before `dispose` reset it; we re-arm `frameId` to model a
callback already queued at disposal time). -/
def disposedPending : ScrollerState :=
  { dispose (glide { top := some 5 } (initialState none false none ⟨5, 7⟩)) with
      frameId := true }

/-- A scroller spinning on an empty glide vector: `glide({})` on a fresh
scroller whose surface sits at `⟨3, 4⟩`. -/
def emptyGlideState : ScrollerState :=
  glide {} (initialState none false none ⟨3, 4⟩)

/-! ### Helper lemmas -/

theorem requestRender_scrolling (s : ScrollerState) :
    (requestRender s).scrolling = s.scrolling := by
  unfold requestRender; split <;> rfl

theorem requestRender_currentPosition (s : ScrollerState) :
    (requestRender s).currentPosition = s.currentPosition := by
  unfold requestRender; split <;> rfl

theorem requestRender_gliding (s : ScrollerState) :
    (requestRender s).gliding = s.gliding := by
  unfold requestRender; split <;> rfl

theorem requestRender_friction (s : ScrollerState) :
    (requestRender s).friction = s.friction := by
  unfold requestRender; split <;> rfl

theorem requestRender_frameId (s : ScrollerState) :
    (requestRender s).frameId = true := by
  unfold requestRender; split <;> simp_all

/-- `scrollBy` composes velocities: the new pending velocity is the old one
(or `0`) plus the requested deltas, the cached position is untouched, and a
frame is pending. -/
theorem scrollBy_fields (o : ScrollByOptions) (s : ScrollerState) :
    (scrollBy o s).scrolling =
      some ((s.scrolling.map Prod.fst).getD 0 + o.left.getD 0,
            (s.scrolling.map Prod.snd).getD 0 + o.top.getD 0) ∧
    (scrollBy o s).currentPosition = s.currentPosition ∧
    (scrollBy o s).gliding = s.gliding ∧
    (scrollBy o s).frameId = true ∧
    (scrollBy o s).disposed = s.disposed ∧
    (scrollBy o s).elementPos = s.elementPos ∧
    (scrollBy o s).lastFrameTime = s.lastFrameTime ∧
    (scrollBy o s).selfFriction = s.selfFriction := by
  unfold scrollBy requestRender
  split <;> simp_all

theorem scrollBy_friction (o : ScrollByOptions) (s : ScrollerState) :
    (scrollBy o s).friction =
      match o.friction with
      | some f => if f = 0 then s.selfFriction else f
      | none => s.selfFriction := by
  rcases o with ⟨l, tp, fr⟩
  rcases fr with _ | f <;>
    unfold scrollBy requestRender <;> dsimp only <;> split <;> rfl

/-- `render` on a disposed scroller is the identity. -/
theorem render_disposed (len : ScrollLength) (mft t : ℚ) (s : ScrollerState)
    (hd : s.disposed = true) : render len mft t s = s := by
  unfold render
  simp [hd]

/-- `render` never touches the gliding vector, the frictions, the
`disposed` flag or the option fields. -/
theorem render_preserves (len : ScrollLength) (mft t : ℚ) (s : ScrollerState) :
    (render len mft t s).gliding = s.gliding ∧
    (render len mft t s).friction = s.friction ∧
    (render len mft t s).selfFriction = s.selfFriction ∧
    (render len mft t s).wheelFriction = s.wheelFriction ∧
    (render len mft t s).flipWheel = s.flipWheel ∧
    (render len mft t s).disposed = s.disposed := by
  unfold render
  split
  · exact ⟨rfl, rfl, rfl, rfl, rfl, rfl⟩
  · dsimp only
    split <;> exact ⟨rfl, rfl, rfl, rfl, rfl, rfl⟩

/-- The per-frame scrolling update, with no gliding motion active: the
exact deltas, cutoff conditions, committed position, and rescheduling
behavior of `render`. -/
theorem render_scroll_eq (len : ScrollLength) (mft t : ℚ) (s : ScrollerState)
    (x y td af xd yd sx sy : ℚ) (sc : Option (ℚ × ℚ))
    (hd : s.disposed = false) (hs : s.scrolling = some (x, y))
    (hg : s.gliding = none)
    (htd : (match s.lastFrameTime with | some tp => t - tp | none => mft) = td)
    (haf : clamp 0 (s.friction * (td / STANDARD_FRAME_TIME)) 1 = af)
    (hxd : x * af = xd) (hyd : y * af = yd)
    (hsx : (if |xd| < 2 / 10 ∨ ¬ isWithin 0 (s.currentPosition.left + xd) len.width
            then 0 else x - xd) = sx)
    (hsy : (if |yd| < 2 / 10 ∨ ¬ isWithin 0 (s.currentPosition.top + yd) len.height
            then 0 else y - yd) = sy)
    (hsc : (if sx = 0 ∧ sy = 0 then none else some (sx, sy)) = sc) :
    render len mft t s =
      { s with
          currentPosition := ⟨clamp 0 (s.currentPosition.left + xd) len.width,
                              clamp 0 (s.currentPosition.top + yd) len.height⟩,
          elementPos := ⟨clamp 0 (s.currentPosition.left + xd) len.width,
                         clamp 0 (s.currentPosition.top + yd) len.height⟩,
          scrolling := sc,
          lastFrameTime := if sc.isSome then some t else none,
          frameId := sc.isSome } := by
  unfold render setPosition
  rw [hd, hs, hg, htd]
  dsimp only
  rw [haf, hxd, hyd, hsx, hsy, hsc]
  cases sc <;> simp

/-- The per-frame update with no motion at all: the position is re-clamped
and committed, the frame timestamp and pending frame are cleared. -/
theorem render_idle_eq (len : ScrollLength) (mft t : ℚ) (s : ScrollerState)
    (hd : s.disposed = false) (hs : s.scrolling = none) (hg : s.gliding = none) :
    render len mft t s =
      { s with
          currentPosition := ⟨clamp 0 (s.currentPosition.left + 0) len.width,
                              clamp 0 (s.currentPosition.top + 0) len.height⟩,
          elementPos := ⟨clamp 0 (s.currentPosition.left + 0) len.width,
                         clamp 0 (s.currentPosition.top + 0) len.height⟩,
          scrolling := none,
          lastFrameTime := none,
          frameId := false } := by
  unfold render setPosition
  rw [hd, hs, hg]
  simp

/-- The per-frame update with only a gliding motion active: the position
advances by `velocity * (timeDelta / 1000)` per axis, clamped; the glide
persists and another frame is scheduled. -/
theorem render_glide_eq (len : ScrollLength) (mft t : ℚ) (s : ScrollerState)
    (gx gy td gdx gdy : ℚ)
    (hd : s.disposed = false) (hs : s.scrolling = none)
    (hg : s.gliding = some (gx, gy))
    (htd : (match s.lastFrameTime with | some tp => t - tp | none => mft) = td)
    (hgx : 0 + gx * (td / 1000) = gdx) (hgy : 0 + gy * (td / 1000) = gdy) :
    render len mft t s =
      { s with
          currentPosition := ⟨clamp 0 (s.currentPosition.left + gdx) len.width,
                              clamp 0 (s.currentPosition.top + gdy) len.height⟩,
          elementPos := ⟨clamp 0 (s.currentPosition.left + gdx) len.width,
                         clamp 0 (s.currentPosition.top + gdy) len.height⟩,
          scrolling := none,
          lastFrameTime := some t,
          frameId := true } := by
  unfold render setPosition
  rw [hd, hs, hg, htd]
  dsimp only
  rw [hgx, hgy]
  simp

/-- The per-frame update with both a scrolling and a gliding motion
active: the per-axis deltas add up, and the frame is always rescheduled
(the glide persists). -/
theorem render_scroll_glide_eq (len : ScrollLength) (mft t : ℚ)
    (s : ScrollerState) (x y gx gy td af xd yd sx sy lbx lby : ℚ)
    (sc : Option (ℚ × ℚ))
    (hd : s.disposed = false) (hs : s.scrolling = some (x, y))
    (hg : s.gliding = some (gx, gy))
    (htd : (match s.lastFrameTime with | some tp => t - tp | none => mft) = td)
    (haf : clamp 0 (s.friction * (td / STANDARD_FRAME_TIME)) 1 = af)
    (hxd : x * af = xd) (hyd : y * af = yd)
    (hsx : (if |xd| < 2 / 10 ∨ ¬ isWithin 0 (s.currentPosition.left + xd) len.width
            then 0 else x - xd) = sx)
    (hsy : (if |yd| < 2 / 10 ∨ ¬ isWithin 0 (s.currentPosition.top + yd) len.height
            then 0 else y - yd) = sy)
    (hsc : (if sx = 0 ∧ sy = 0 then none else some (sx, sy)) = sc)
    (hlx : xd + gx * (td / 1000) = lbx) (hly : yd + gy * (td / 1000) = lby) :
    render len mft t s =
      { s with
          currentPosition := ⟨clamp 0 (s.currentPosition.left + lbx) len.width,
                              clamp 0 (s.currentPosition.top + lby) len.height⟩,
          elementPos := ⟨clamp 0 (s.currentPosition.left + lbx) len.width,
                         clamp 0 (s.currentPosition.top + lby) len.height⟩,
          scrolling := sc,
          lastFrameTime := some t,
          frameId := true } := by
  unfold render setPosition
  rw [hd, hs, hg, htd]
  dsimp only
  rw [haf, hxd, hyd, hsx, hsy, hsc, hlx, hly]
  simp

/-- Whatever the active motions, a frame on a non-disposed scroller
commits a position of the shape `clamp 0 (previous + delta) length` on
each axis. -/
theorem render_position_clamped (len : ScrollLength) (mft t : ℚ)
    (s : ScrollerState) (hd : s.disposed = false) :
    ∃ dx dy,
      (render len mft t s).currentPosition =
        ⟨clamp 0 (s.currentPosition.left + dx) len.width,
         clamp 0 (s.currentPosition.top + dy) len.height⟩ ∧
      (render len mft t s).elementPos = (render len mft t s).currentPosition := by
  rcases hs : s.scrolling with _ | ⟨x, y⟩ <;> rcases hg : s.gliding with _ | ⟨gx, gy⟩
  · rw [render_idle_eq len mft t s hd hs hg]
    exact ⟨0, 0, rfl, rfl⟩
  · rw [render_glide_eq len mft t s gx gy _ _ _ hd hs hg rfl rfl rfl]
    exact ⟨_, _, rfl, rfl⟩
  · rw [render_scroll_eq len mft t s x y _ _ _ _ _ _ _ hd hs hg rfl rfl rfl rfl rfl rfl rfl]
    exact ⟨_, _, rfl, rfl⟩
  · rw [render_scroll_glide_eq len mft t s x y gx gy _ _ _ _ _ _ _ _ _ hd hs hg
      rfl rfl rfl rfl rfl rfl rfl rfl rfl]
    exact ⟨_, _, rfl, rfl⟩

/-- `clamp 0 v w` lands in `[0, w]` whenever `0 ≤ w`. -/
theorem isWithin_clamp (v w : ℚ) (hw : 0 ≤ w) : isWithin 0 (clamp 0 v w) w := by
  unfold isWithin clamp
  exact ⟨le_max_left 0 _, max_le hw (min_le_left w v)⟩

theorem glide_fields (o : GlideOptions) (s : ScrollerState) :
    (glide o s).gliding = some (o.left.getD 0, o.top.getD 0) ∧
    (glide o s).frameId = true ∧
    (glide o s).scrolling = s.scrolling ∧
    (glide o s).currentPosition = s.currentPosition ∧
    (glide o s).disposed = s.disposed ∧
    (glide o s).elementPos = s.elementPos := by
  unfold glide requestRender
  split <;> simp_all

theorem stop_fields (s : ScrollerState) :
    (stop s).scrolling = none ∧ (stop s).gliding = none ∧
    (stop s).frameId = false ∧ (stop s).lastFrameTime = none ∧
    (stop s).disposed = s.disposed ∧ (stop s).elementPos = s.elementPos ∧
    (stop s).currentPosition = s.currentPosition := by
  exact ⟨rfl, rfl, rfl, rfl, rfl, rfl, rfl⟩

theorem dispose_fields (s : ScrollerState) :
    (dispose s).disposed = true ∧ (dispose s).scrolling = none ∧
    (dispose s).gliding = none ∧ (dispose s).frameId = false ∧
    (dispose s).elementPos = s.elementPos ∧
    (dispose s).currentPosition = s.currentPosition := by
  exact ⟨rfl, rfl, rfl, rfl, rfl, rfl⟩

theorem scrollTo_fields (o : ScrollToOptions) (len : ScrollLength)
    (s : ScrollerState) :
    (scrollTo o len s).disposed = s.disposed ∧
    (scrollTo o len s).elementPos = s.elementPos ∧
    (scrollTo o len s).currentPosition = s.currentPosition ∧
    (scrollTo o len s).frameId = true ∧
    (scrollTo o len s).gliding = s.gliding := by
  simp only [scrollTo]
  exact ⟨(scrollBy_fields _ s).2.2.2.2.1, (scrollBy_fields _ s).2.2.2.2.2.1,
    (scrollBy_fields _ s).2.1, (scrollBy_fields _ s).2.2.2.1,
    (scrollBy_fields _ s).2.2.1⟩

/-- After `scrollTo({left: c, friction: fr})`, the cached position plus the
pending horizontal velocity equals the clamped target; the cached position
and the pending vertical velocity are unchanged. -/
theorem scrollTo_left_dest (s : ScrollerState) (len : ScrollLength)
    (c : Coord) (fr : Option ℚ) :
    (scrollTo { left := some c, friction := fr } len s).currentPosition.left +
      (((scrollTo { left := some c, friction := fr } len s).scrolling.map
        Prod.fst).getD 0) = clampCoord 0 c len.width ∧
    (scrollTo { left := some c, friction := fr } len s).currentPosition =
      s.currentPosition ∧
    (((scrollTo { left := some c, friction := fr } len s).scrolling.map
      Prod.snd).getD 0) = (s.scrolling.map Prod.snd).getD 0 := by
  simp only [scrollTo]
  obtain ⟨h1, h2, -, -, -, -⟩ := scrollBy_fields
    { left := some (clampCoord 0 c len.width -
        (s.currentPosition.left + (s.scrolling.map Prod.fst).getD 0))
      top := some 0
      friction := fr } s
  rw [h1, h2]
  refine ⟨?_, rfl, ?_⟩
  · simp
    ring
  · simp

/-! ### C4: glide axis replacement -/

/-- C4 counterexample: with an active horizontal glide (`glide({left: 30})`,
so `gliding = (30, 0)`), the call `glide({top: -50})` does NOT leave the
horizontal glide untouched: it replaces the whole vector with `(0, -50)`,
and the follow-up `glide({top: 0})` leaves `(0, 0)`. -/
theorem glide_axis_untouched_counterexample :
    horizontalGlide.gliding = some (30, 0) ∧
    (glide { top := some (-50) } horizontalGlide).gliding = some (0, -50) ∧
    (glide { top := some (-50) } horizontalGlide).gliding ≠ some (30, -50) ∧
    (glide { top := some 0 } (glide { top := some (-50) } horizontalGlide)).gliding =
      some (0, 0) := by
  decide

/-- C4 (amended): `glide` replaces the entire gliding vector: each axis
becomes the supplied speed, and an axis not supplied, or supplied as `0`,
becomes `0` — stopping glide on that axis and likewise overwriting (not
preserving) whatever glide was previously active on the other axis. -/
theorem glide_replaces_vector (o : GlideOptions) (s : ScrollerState) :
    (glide o s).gliding = some (o.left.getD 0, o.top.getD 0) ∧
    (glide o s).frameId = true ∧
    (glide o s).scrolling = s.scrolling ∧
    (glide o s).currentPosition = s.currentPosition := by
  obtain ⟨h1, h2, h3, h4, -, -⟩ := glide_fields o s
  exact ⟨h1, h2, h3, h4⟩

/-! ### C6: friction 0 -/

/-- C6: with friction exactly `0` in effect (instance friction `0`, no
per-call override), a `scrollBy({left: 100})` motion does NOT run forever:
on the very first frame the per-axis delta is `0`, the `|delta| < 0.2`
cutoff zeroes both axes, and the motion is cleared with the position
unmoved — contradicting the documented "0 means infinite animations". -/
theorem friction_zero_stops_first_frame :
    frictionZeroScroll.friction = 0 ∧
    frictionZeroScroll.scrolling = some (100, 0) ∧
    (simulate ⟨1000, 1000⟩ 0 1 frictionZeroScroll).scrolling = none ∧
    (simulate ⟨1000, 1000⟩ 0 1 frictionZeroScroll).currentPosition = ⟨0, 0⟩ ∧
    (simulate ⟨1000, 1000⟩ 0 1 frictionZeroScroll).frameId = false := by
  norm_num [simulate, stepOnce, render, setPosition, clamp, isWithin,
    STANDARD_FRAME_TIME, frictionZeroScroll, initialState, scrollBy,
    requestRender, abs]

/-! ### C7: scrollBy friction override and velocity composition -/

/-- C7 counterexample: with a scrolling motion still in flight
(`scrolling = (100, 0) ≠ null`) under an overriding in-effect friction
`1/2` (instance default `1/5`), a further `scrollBy({left: 10})` with no
friction argument resets the in-effect friction to the instance default
immediately — the motion had not decayed, so the override does not last
"until that motion fully decays". -/
theorem friction_override_reset_midmotion_counterexample :
    midScrollState.scrolling = some (100, 0) ∧
    midScrollState.friction = 1 / 2 ∧
    midScrollState.selfFriction = 1 / 5 ∧
    (scrollBy { left := some 10 } midScrollState).scrolling = some (110, 0) ∧
    (scrollBy { left := some 10 } midScrollState).friction = 1 / 5 := by
  norm_num [scrollBy, requestRender, midScrollState]

/-- C7 (amended): every `scrollBy` call sets the in-effect friction — to
its `friction` argument when present and nonzero, otherwise to the
instance default — even while a previous motion is still decaying; `render`
never modifies the in-effect friction, so an override persists until the
next `scrollBy` call (not until the motion decays); `scrollBy` adds
`left`/`top` (default `0` each) onto the pending per-axis scrolling
velocity (composition, not replacement) and ensures a frame is requested. -/
theorem scrollBy_semantics (o : ScrollByOptions) (s : ScrollerState)
    (len : ScrollLength) (mft t : ℚ) :
    (scrollBy o s).friction =
      (match o.friction with
       | some f => if f = 0 then s.selfFriction else f
       | none => s.selfFriction) ∧
    (scrollBy o s).scrolling =
      some ((s.scrolling.map Prod.fst).getD 0 + o.left.getD 0,
            (s.scrolling.map Prod.snd).getD 0 + o.top.getD 0) ∧
    (scrollBy o s).frameId = true ∧
    (render len mft t s).friction = s.friction := by
  exact ⟨scrollBy_friction o s, (scrollBy_fields o s).1,
    (scrollBy_fields o s).2.2.2.1, (render_preserves len mft t s).2.1⟩

/-! ### C3: the per-frame scrolling axis rule -/

/-- C3: on a frame with an active scrolling motion (no glide), with
`elapsed = t - tp` since the recorded previous frame, each axis is
advanced by `delta = velocity * adjustedFriction` where
`adjustedFriction = clamp(0, friction * (elapsed / standardFrameTime), 1)`
(the committed position is the clamped `position + delta`), and the axis
velocity becomes `0` exactly under the `axisVelocityUpdate` rule —
`|delta| < 0.2` or `position + delta` outside `[0, length]` — and
`velocity - delta` otherwise; the motion is cleared when both axes hit `0`. -/
theorem scroll_frame_axis_rule (len : ScrollLength) (mft t tp xd yd : ℚ)
    (s : ScrollerState) (x y : ℚ)
    (hd : s.disposed = false) (hs : s.scrolling = some (x, y))
    (hg : s.gliding = none) (hl : s.lastFrameTime = some tp)
    (hxd : x * clamp 0 (s.friction * ((t - tp) / STANDARD_FRAME_TIME)) 1 = xd)
    (hyd : y * clamp 0 (s.friction * ((t - tp) / STANDARD_FRAME_TIME)) 1 = yd) :
    (render len mft t s).scrolling =
      (if axisVelocityUpdate x xd s.currentPosition.left len.width = 0 ∧
          axisVelocityUpdate y yd s.currentPosition.top len.height = 0
       then none
       else some (axisVelocityUpdate x xd s.currentPosition.left len.width,
                  axisVelocityUpdate y yd s.currentPosition.top len.height)) ∧
    (render len mft t s).currentPosition =
      ⟨clamp 0 (s.currentPosition.left + xd) len.width,
       clamp 0 (s.currentPosition.top + yd) len.height⟩ := by
  have htd : (match s.lastFrameTime with | some tp2 => t - tp2 | none => mft) =
      t - tp := by rw [hl]
  rw [render_scroll_eq len mft t s x y (t - tp) _ xd yd _ _ _ hd hs hg htd
    rfl hxd hyd rfl rfl rfl]
  exact ⟨rfl, rfl⟩

/-- C3 witness: the axis rule at a concrete mid-scroll frame. -/
theorem scroll_frame_axis_rule_witness :
    midScrollState.disposed = false ∧
    midScrollState.scrolling = some (100, 0) ∧
    midScrollState.gliding = none ∧
    midScrollState.lastFrameTime = some 0 ∧
    100 * clamp 0 (midScrollState.friction *
      ((STANDARD_FRAME_TIME - 0) / STANDARD_FRAME_TIME)) 1 = 50 ∧
    0 * clamp 0 (midScrollState.friction *
      ((STANDARD_FRAME_TIME - 0) / STANDARD_FRAME_TIME)) 1 = 0 ∧
    ((render ⟨1000, 500⟩ STANDARD_FRAME_TIME STANDARD_FRAME_TIME
        midScrollState).scrolling =
      (if axisVelocityUpdate 100 50 midScrollState.currentPosition.left 1000 = 0 ∧
          axisVelocityUpdate 0 0 midScrollState.currentPosition.top 500 = 0
       then none
       else some (axisVelocityUpdate 100 50 midScrollState.currentPosition.left 1000,
                  axisVelocityUpdate 0 0 midScrollState.currentPosition.top 500)) ∧
     (render ⟨1000, 500⟩ STANDARD_FRAME_TIME STANDARD_FRAME_TIME
        midScrollState).currentPosition =
      ⟨clamp 0 (midScrollState.currentPosition.left + 50) 1000,
       clamp 0 (midScrollState.currentPosition.top + 0) 500⟩) :=
  ⟨rfl, rfl, rfl, rfl,
   by norm_num [midScrollState, clamp, STANDARD_FRAME_TIME],
   by simp,
   scroll_frame_axis_rule ⟨1000, 500⟩ STANDARD_FRAME_TIME STANDARD_FRAME_TIME 0
     50 0 midScrollState 100 0 rfl rfl rfl rfl
     (by norm_num [midScrollState, clamp, STANDARD_FRAME_TIME]) (by simp)⟩

/-! ### C8: dispose makes the scroller inert at the render step -/

/-- C8: `render` checks the `disposed` flag first and is the identity on a
disposed scroller (no position write, even for a frame scheduled before
disposal); `dispose` sets the flag; every further public call leaves the
flag set and never writes the surface position itself, so a render
following any post-dispose call still writes nothing. -/
theorem dispose_inert (s s0 : ScrollerState) (len : ScrollLength) (mft t : ℚ)
    (o1 : ScrollToOptions) (o2 : ScrollByOptions) (o3 : GlideOptions)
    (hd : s.disposed = true) :
    render len mft t s = s ∧
    (dispose s0).disposed = true ∧
    (scrollTo o1 len s).disposed = true ∧
    (scrollTo o1 len s).elementPos = s.elementPos ∧
    (scrollBy o2 s).disposed = true ∧
    (scrollBy o2 s).elementPos = s.elementPos ∧
    (glide o3 s).disposed = true ∧
    (glide o3 s).elementPos = s.elementPos ∧
    (stop s).disposed = true ∧
    (stop s).elementPos = s.elementPos ∧
    render len mft t (scrollBy o2 s) = scrollBy o2 s :=
  ⟨render_disposed len mft t s hd,
   (dispose_fields s0).1,
   (scrollTo_fields o1 len s).1.trans hd,
   (scrollTo_fields o1 len s).2.1,
   (scrollBy_fields o2 s).2.2.2.2.1.trans hd,
   (scrollBy_fields o2 s).2.2.2.2.2.1,
   (glide_fields o3 s).2.2.2.2.1.trans hd,
   (glide_fields o3 s).2.2.2.2.2,
   (stop_fields s).2.2.2.2.1.trans hd,
   (stop_fields s).2.2.2.2.2.1,
   render_disposed len mft t _ ((scrollBy_fields o2 s).2.2.2.2.1.trans hd)⟩

/-- C8 witness: a disposed scroller with a frame still pending. -/
theorem dispose_inert_witness :
    disposedPending.disposed = true ∧
    (render ⟨100, 100⟩ STANDARD_FRAME_TIME 5 disposedPending = disposedPending ∧
     (dispose freshHalf).disposed = true ∧
     (scrollTo {} ⟨100, 100⟩ disposedPending).disposed = true ∧
     (scrollTo {} ⟨100, 100⟩ disposedPending).elementPos = disposedPending.elementPos ∧
     (scrollBy {} disposedPending).disposed = true ∧
     (scrollBy {} disposedPending).elementPos = disposedPending.elementPos ∧
     (glide {} disposedPending).disposed = true ∧
     (glide {} disposedPending).elementPos = disposedPending.elementPos ∧
     (stop disposedPending).disposed = true ∧
     (stop disposedPending).elementPos = disposedPending.elementPos ∧
     render ⟨100, 100⟩ STANDARD_FRAME_TIME 5 (scrollBy {} disposedPending) =
       scrollBy {} disposedPending) :=
  ⟨rfl, dispose_inert disposedPending freshHalf ⟨100, 100⟩ STANDARD_FRAME_TIME 5
    {} {} {} rfl⟩

/-! ### C9: wheel gesture ownership -/

/-- C9: a wheel event arriving more than 300 ms after the last foreign
wheel timestamp is intercepted — a `wheelFriction`-governed `scrollBy`
with `deltaX`/`deltaY` swapped when `flipWheel` is set, and default
handling prevented; one arriving within 300 ms is left unintercepted and
causes no state change. -/
theorem wheel_ownership (now lgw dx dy : ℚ) (s : ScrollerState) :
    (now - lgw < 300 → handleWheel now lgw dx dy s = (s, false)) ∧
    (300 < now - lgw →
      handleWheel now lgw dx dy s =
        (scrollBy
          (if s.flipWheel then
            { left := some dy, top := some dx, friction := some s.wheelFriction }
          else
            { left := some dx, top := some dy, friction := some s.wheelFriction })
          s, true)) := by
  constructor
  · intro h
    unfold handleWheel
    rw [if_pos h]
  · intro h
    unfold handleWheel
    rw [if_neg (by linarith)]

/-- C9 witness: a foreign wheel 1000 ms ago is intercepted; one 100 ms ago
is not. -/
theorem wheel_ownership_witness :
    (300 < (1000 : ℚ) - 0 ∧
      handleWheel 1000 0 3 4 freshHalf =
        (scrollBy
          (if freshHalf.flipWheel then
            { left := some 4, top := some 3, friction := some freshHalf.wheelFriction }
          else
            { left := some 3, top := some 4, friction := some freshHalf.wheelFriction })
          freshHalf, true)) ∧
    ((100 : ℚ) - 0 < 300 ∧ handleWheel 100 0 3 4 freshHalf = (freshHalf, false)) :=
  ⟨⟨by norm_num, (wheel_ownership 1000 0 3 4 freshHalf).2 (by norm_num)⟩,
   ⟨by norm_num, (wheel_ownership 100 0 3 4 freshHalf).1 (by norm_num)⟩⟩

/-! ### C10: an empty glide vector spins the render loop -/

/-- C10: `glide({})` (both axes absent or zero) leaves the gliding vector
present as `(0, 0)` rather than clearing it; a frame rendered in that
state commits an unchanged (re-clamped) position and reschedules another
frame, indefinitely, until `stop`/`dispose` clears the vector. -/
theorem empty_glide_spins (s sg : ScrollerState) (len : ScrollLength)
    (mft t : ℚ)
    (hd : sg.disposed = false) (hg : sg.gliding = some (0, 0))
    (hs : sg.scrolling = none) :
    (glide {} s).gliding = some (0, 0) ∧
    render len mft t sg =
      { sg with
          currentPosition := ⟨clamp 0 sg.currentPosition.left len.width,
                              clamp 0 sg.currentPosition.top len.height⟩,
          elementPos := ⟨clamp 0 sg.currentPosition.left len.width,
                         clamp 0 sg.currentPosition.top len.height⟩,
          lastFrameTime := some t,
          frameId := true } ∧
    (stop sg).gliding = none ∧ (dispose sg).gliding = none := by
  refine ⟨by simpa using (glide_fields {} s).1, ?_, rfl, rfl⟩
  rw [render_glide_eq len mft t sg 0 0 _ 0 0 hd hs hg rfl (by ring) (by ring)]
  simp [hs]

/-- C10 witness: the spin at a concrete empty-glide state. -/
theorem empty_glide_spins_witness :
    emptyGlideState.disposed = false ∧
    emptyGlideState.gliding = some (0, 0) ∧
    emptyGlideState.scrolling = none ∧
    ((glide {} freshHalf).gliding = some (0, 0) ∧
     render ⟨100, 200⟩ STANDARD_FRAME_TIME 5 emptyGlideState =
      { emptyGlideState with
          currentPosition := ⟨clamp 0 emptyGlideState.currentPosition.left 100,
                              clamp 0 emptyGlideState.currentPosition.top 200⟩,
          elementPos := ⟨clamp 0 emptyGlideState.currentPosition.left 100,
                         clamp 0 emptyGlideState.currentPosition.top 200⟩,
          lastFrameTime := some 5,
          frameId := true } ∧
     (stop emptyGlideState).gliding = none ∧
     (dispose emptyGlideState).gliding = none) :=
  ⟨rfl, rfl, rfl,
   empty_glide_spins freshHalf emptyGlideState ⟨100, 200⟩ STANDARD_FRAME_TIME 5
     rfl rfl rfl⟩

/-! ### C1: scrollTo velocity-delta composition -/

/-- C1 counterexample: `scrollTo({left: 300})` then `scrollTo({left: 500})`
(friction `1/2`, width `1000`) composes to pending velocity `500`, but the
rendered frames settle at `511875/1024 ≈ 499.878`, not at exactly
`clamp(0, 500, 1000) = 500`: the `0.2`-px cutoff stops the decay short. -/
theorem two_scrollTos_settle_short_counterexample :
    twoScrollTos.scrolling = some (500, 0) ∧
    twoScrollTos.currentPosition.left = 0 ∧
    clamp 0 500 1000 = 500 ∧
    (simulate ⟨1000, 0⟩ 0 12 twoScrollTos).scrolling = none ∧
    (simulate ⟨1000, 0⟩ 0 12 twoScrollTos).currentPosition.left = 511875 / 1024 ∧
    (simulate ⟨1000, 0⟩ 0 20 twoScrollTos).currentPosition.left = 511875 / 1024 ∧
    (511875 / 1024 : ℚ) ≠ 500 := by
  norm_num [simulate, stepOnce, render, setPosition, clamp, isWithin,
    STANDARD_FRAME_TIME, twoScrollTos, freshHalf, initialState, scrollTo,
    scrollBy, requestRender, clampCoord, abs]

/-- C1 (amended): `scrollTo` computes the delta velocity so that, under
the existing pending scrolling velocity plus the cached position, the
pending destination equals the clamped target: after `scrollTo({left: a})`
immediately followed by `scrollTo({left: b})`, the cached position plus
the pending horizontal velocity is exactly `clamp(0, b, width)` —
velocity-delta composition, not naive replacement or blending — while the
cached position and the untouched vertical axis's pending velocity are
unchanged.  The rendered frames then settle short of that destination by
the sub-`0.2/adjustedFriction` cutoff residual, not exactly on it. -/
theorem scrollTo_destination_compose (s : ScrollerState) (len : ScrollLength)
    (a b : Coord) :
    (scrollTo { left := some b } len
        (scrollTo { left := some a } len s)).currentPosition.left +
      (((scrollTo { left := some b } len
        (scrollTo { left := some a } len s)).scrolling.map Prod.fst).getD 0) =
      clampCoord 0 b len.width ∧
    (scrollTo { left := some b } len
        (scrollTo { left := some a } len s)).currentPosition =
      s.currentPosition ∧
    (((scrollTo { left := some b } len
        (scrollTo { left := some a } len s)).scrolling.map Prod.snd).getD 0) =
      (s.scrolling.map Prod.snd).getD 0 := by
  obtain ⟨h1b, h2b, h3b⟩ :=
    scrollTo_left_dest (scrollTo { left := some a } len s) len b none
  obtain ⟨-, h2a, h3a⟩ := scrollTo_left_dest s len a none
  exact ⟨h1b, h2b.trans h2a, h3b.trans h3a⟩

/-! ### C2: committed positions stay in bounds -/

/-- C2 counterexample: `scrollTo({left: Infinity})` (friction `1/2`, width
`10`) resolves to pending velocity `10` and never overshoots, but settles
at `315/32 = 9.84375`, strictly below the width — not exactly at it. -/
theorem scrollTo_infinity_settles_short_counterexample :
    scrollToInf.scrolling = some (10, 0) ∧
    (simulate ⟨10, 0⟩ 0 6 scrollToInf).scrolling = none ∧
    (simulate ⟨10, 0⟩ 0 6 scrollToInf).currentPosition.left = 315 / 32 ∧
    (simulate ⟨10, 0⟩ 0 20 scrollToInf).currentPosition.left = 315 / 32 ∧
    (315 / 32 : ℚ) < 10 := by
  norm_num [simulate, stepOnce, render, setPosition, clamp, isWithin,
    STANDARD_FRAME_TIME, scrollToInf, initialState, scrollTo, scrollBy,
    requestRender, clampCoord, abs]

/-- C2 (amended): after every committed frame — every `render` on a
non-disposed scroller, with the scrollable lengths nonnegative as the DOM
guarantees — each axis of the committed position lies within
`[0, scrollableLength]`, and the surface is written exactly the cached
position; overshooting targets are clamped, so `scrollTo({left:
Infinity})` never goes beyond `width` (though it settles short of `width`
by the epsilon-cutoff residual rather than exactly on it). -/
theorem position_invariant (len : ScrollLength) (mft t : ℚ)
    (s : ScrollerState)
    (hd : s.disposed = false) (hw : 0 ≤ len.width) (hh : 0 ≤ len.height) :
    isWithin 0 (render len mft t s).currentPosition.left len.width ∧
    isWithin 0 (render len mft t s).currentPosition.top len.height ∧
    (render len mft t s).elementPos = (render len mft t s).currentPosition := by
  obtain ⟨dx, dy, hp, he⟩ := render_position_clamped len mft t s hd
  refine ⟨?_, ?_, he⟩
  · rw [hp]
    exact isWithin_clamp _ _ hw
  · rw [hp]
    exact isWithin_clamp _ _ hh

/-- C2 witness: the invariant at a concrete frame. -/
theorem position_invariant_witness :
    freshHalf.disposed = false ∧ (0 : ℚ) ≤ 10 ∧ (0 : ℚ) ≤ 0 ∧
    (isWithin 0 (render ⟨10, 0⟩ STANDARD_FRAME_TIME 0 freshHalf).currentPosition.left 10 ∧
     isWithin 0 (render ⟨10, 0⟩ STANDARD_FRAME_TIME 0 freshHalf).currentPosition.top 0 ∧
     (render ⟨10, 0⟩ STANDARD_FRAME_TIME 0 freshHalf).elementPos =
       (render ⟨10, 0⟩ STANDARD_FRAME_TIME 0 freshHalf).currentPosition) :=
  ⟨rfl, by norm_num, le_refl 0,
   position_invariant ⟨10, 0⟩ STANDARD_FRAME_TIME 0 freshHalf rfl (by norm_num)
     (le_refl 0)⟩

/-! ### C5: termination of a lone scrolling motion -/

/-- At the standard frame rate the deviation is `1`, so for `f ∈ [0, 1]`
the adjusted friction is `f` itself. -/
theorem adjustedFriction_std (f : ℚ) (h0 : 0 ≤ f) (h1 : f ≤ 1) :
    clamp 0 (f * (STANDARD_FRAME_TIME / STANDARD_FRAME_TIME)) 1 = f := by
  have hst : STANDARD_FRAME_TIME / STANDARD_FRAME_TIME = 1 := by
    norm_num [STANDARD_FRAME_TIME]
  rw [hst, mul_one]
  unfold clamp
  rw [min_eq_right h1, max_eq_right h0]

/-- Case analysis on one scrolling frame: the motion is either cleared, or
survives with the updated per-axis velocities, each of which is `0` or the
decayed `velocity - delta`. -/
theorem render_scroll_cases (len : ScrollLength) (mft t td af xd yd sx sy : ℚ)
    (s : ScrollerState) (x y : ℚ)
    (hd : s.disposed = false) (hs : s.scrolling = some (x, y))
    (hg : s.gliding = none)
    (htd : (match s.lastFrameTime with | some tp => t - tp | none => mft) = td)
    (haf : clamp 0 (s.friction * (td / STANDARD_FRAME_TIME)) 1 = af)
    (hxd : x * af = xd) (hyd : y * af = yd)
    (hsx : (if |xd| < 2 / 10 ∨ ¬ isWithin 0 (s.currentPosition.left + xd) len.width
            then 0 else x - xd) = sx)
    (hsy : (if |yd| < 2 / 10 ∨ ¬ isWithin 0 (s.currentPosition.top + yd) len.height
            then 0 else y - yd) = sy) :
    (sx = 0 ∨ sx = x - xd) ∧ (sy = 0 ∨ sy = y - yd) ∧
    ((render len mft t s).scrolling = none ∨
     ((render len mft t s).scrolling = some (sx, sy) ∧
      (render len mft t s).frameId = true ∧
      (render len mft t s).lastFrameTime = some t)) := by
  refine ⟨?_, ?_, ?_⟩
  · rw [← hsx]
    exact ite_eq_or_eq _ _ _
  · rw [← hsy]
    exact ite_eq_or_eq _ _ _
  rw [render_scroll_eq len mft t s x y td af xd yd sx sy _ hd hs hg htd haf
    hxd hyd hsx hsy rfl]
  by_cases hz : sx = 0 ∧ sy = 0
  · left
    rw [if_pos hz]
  · right
    rw [if_neg hz]
    exact ⟨rfl, rfl, rfl⟩

/-- One simulated frame preserves `decayInv`, shrinking the velocity bound
by another factor of `1 - f`. -/
theorem decayInv_step (f dx dy t : ℚ) (n : ℕ) (len : ScrollLength)
    (s : ScrollerState) (hf0 : 0 < f) (hf1 : f < 1)
    (h : decayInv f dx dy t n s) :
    decayInv f dx dy (t + STANDARD_FRAME_TIME) (n + 1) (stepOnce len t s) := by
  obtain ⟨hd, hg, hfr, hsc | ⟨x, y, hxy, hfid, hlt, hbx, hby⟩⟩ := h
  · unfold stepOnce
    split
    · rw [render_idle_eq len STANDARD_FRAME_TIME t s hd hsc hg]
      exact ⟨hd, hg, hfr, Or.inl rfl⟩
    · exact ⟨hd, hg, hfr, Or.inl hsc⟩
  · have hpre := render_preserves len STANDARD_FRAME_TIME t s
    have htd : (match s.lastFrameTime with
        | some tp => t - tp | none => STANDARD_FRAME_TIME) = STANDARD_FRAME_TIME := by
      rcases hlt with h1 | h1 <;> rw [h1]
      ring
    have haf : clamp 0 (s.friction * (STANDARD_FRAME_TIME / STANDARD_FRAME_TIME)) 1
        = f := by
      rw [hfr]
      exact adjustedFriction_std f hf0.le hf1.le
    obtain ⟨hdx, hdy, hcase⟩ := render_scroll_cases len STANDARD_FRAME_TIME t
      STANDARD_FRAME_TIME f (x * f) (y * f) _ _ s x y hd hxy hg htd haf rfl rfl
      rfl rfl
    unfold stepOnce
    rw [if_pos hfid]
    refine ⟨hpre.2.2.2.2.2.trans hd, hpre.1.trans hg, hpre.2.1.trans hfr, ?_⟩
    have h1mf : (0 : ℚ) ≤ 1 - f := by linarith
    rcases hcase with hnone | ⟨hsome, hfid2, hlt2⟩
    · exact Or.inl hnone
    · refine Or.inr ⟨_, _, hsome, hfid2,
        Or.inr (hlt2.trans (congrArg some (by ring))), ?_, ?_⟩
      · have hb : |(if |x * f| < 2 / 10 ∨
            ¬ isWithin 0 (s.currentPosition.left + x * f) len.width
            then 0 else x - x * f)| ≤ |x| * (1 - f) := by
          rcases hdx with h2 | h2 <;> rw [h2]
          · simpa using mul_nonneg (abs_nonneg x) h1mf
          · rw [show x - x * f = x * (1 - f) by ring, abs_mul, abs_of_nonneg h1mf]
        calc |(if |x * f| < 2 / 10 ∨
              ¬ isWithin 0 (s.currentPosition.left + x * f) len.width
              then 0 else x - x * f)| ≤ |x| * (1 - f) := hb
          _ ≤ (|dx| * (1 - f) ^ n) * (1 - f) := mul_le_mul_of_nonneg_right hbx h1mf
          _ = |dx| * (1 - f) ^ (n + 1) := by ring
      · have hb : |(if |y * f| < 2 / 10 ∨
            ¬ isWithin 0 (s.currentPosition.top + y * f) len.height
            then 0 else y - y * f)| ≤ |y| * (1 - f) := by
          rcases hdy with h2 | h2 <;> rw [h2]
          · simpa using mul_nonneg (abs_nonneg y) h1mf
          · rw [show y - y * f = y * (1 - f) by ring, abs_mul, abs_of_nonneg h1mf]
        calc |(if |y * f| < 2 / 10 ∨
              ¬ isWithin 0 (s.currentPosition.top + y * f) len.height
              then 0 else y - y * f)| ≤ |y| * (1 - f) := hb
          _ ≤ (|dy| * (1 - f) ^ n) * (1 - f) := mul_le_mul_of_nonneg_right hby h1mf
          _ = |dy| * (1 - f) ^ (n + 1) := by ring

/-- Once the decayed bound drives both per-axis deltas under the `0.2`
cutoff, the next frame clears the scrolling motion. -/
theorem decayInv_zero_next (f dx dy t : ℚ) (n : ℕ) (len : ScrollLength)
    (s : ScrollerState) (hf0 : 0 < f) (hf1 : f < 1)
    (h : decayInv f dx dy t n s)
    (hBx : |dx| * (1 - f) ^ n * f < 2 / 10)
    (hBy : |dy| * (1 - f) ^ n * f < 2 / 10) :
    (stepOnce len t s).scrolling = none := by
  obtain ⟨hd, hg, hfr, hsc | ⟨x, y, hxy, hfid, hlt, hbx, hby⟩⟩ := h
  · unfold stepOnce
    split
    · rw [render_idle_eq len STANDARD_FRAME_TIME t s hd hsc hg]
    · exact hsc
  · have htd : (match s.lastFrameTime with
        | some tp => t - tp | none => STANDARD_FRAME_TIME) = STANDARD_FRAME_TIME := by
      rcases hlt with h1 | h1 <;> rw [h1]
      ring
    have haf : clamp 0 (s.friction * (STANDARD_FRAME_TIME / STANDARD_FRAME_TIME)) 1
        = f := by
      rw [hfr]
      exact adjustedFriction_std f hf0.le hf1.le
    have hxlt : |x * f| < 2 / 10 := by
      rw [abs_mul, abs_of_nonneg hf0.le]
      calc |x| * f ≤ |dx| * (1 - f) ^ n * f :=
            mul_le_mul_of_nonneg_right hbx hf0.le
        _ < 2 / 10 := hBx
    have hylt : |y * f| < 2 / 10 := by
      rw [abs_mul, abs_of_nonneg hf0.le]
      calc |y| * f ≤ |dy| * (1 - f) ^ n * f :=
            mul_le_mul_of_nonneg_right hby hf0.le
        _ < 2 / 10 := hBy
    unfold stepOnce
    rw [if_pos hfid]
    rw [render_scroll_eq len STANDARD_FRAME_TIME t s x y STANDARD_FRAME_TIME f
      (x * f) (y * f) 0 0 none hd hxy hg htd haf rfl rfl
      (if_pos (Or.inl hxlt)) (if_pos (Or.inl hylt)) (if_pos ⟨rfl, rfl⟩)]

/-- C5: for any friction `f` strictly between 0 and 1, a single
`scrollBy` on a fresh scroller — with no further calls — drives the
scrolling motion to `null` within a bounded number of simulated
standard-rate frames. -/
theorem scrollBy_motion_terminates (f dx dy sf px py t0 : ℚ)
    (len : ScrollLength) (hf0 : 0 < f) (hf1 : f < 1) :
    ∃ N, (simulate len t0 N
      (scrollBy { left := some dx, top := some dy, friction := some f }
        (initialState (some sf) false none ⟨px, py⟩))).scrolling = none := by
  set s0 := initialState (some sf) false none (⟨px, py⟩ : Position) with hs0
  set s1 := scrollBy { left := some dx, top := some dy, friction := some f } s0
    with hs1
  have hbase : decayInv f dx dy t0 0 s1 := by
    refine ⟨(scrollBy_fields _ _).2.2.2.2.1, (scrollBy_fields _ _).2.2.1, ?_,
      Or.inr ⟨0 + dx, 0 + dy, (scrollBy_fields _ _).1, (scrollBy_fields _ _).2.2.2.1,
        Or.inl (scrollBy_fields _ _).2.2.2.2.2.2.1, ?_, ?_⟩⟩
    · rw [hs1, scrollBy_friction]
      exact if_neg hf0.ne'
    · simp
    · simp
  have hind : ∀ m : ℕ,
      decayInv f dx dy (t0 + m * STANDARD_FRAME_TIME) m (simulate len t0 m s1) := by
    intro m
    induction m with
    | zero => simpa using hbase
    | succ k ih =>
        have hstep := decayInv_step f dx dy (t0 + k * STANDARD_FRAME_TIME) k len
          (simulate len t0 k s1) hf0 hf1 ih
        have harith : t0 + ((k : ℚ) + 1) * STANDARD_FRAME_TIME =
            t0 + (k : ℚ) * STANDARD_FRAME_TIME + STANDARD_FRAME_TIME := by ring
        push_cast
        rw [harith]
        exact hstep
  have hsum : (0 : ℚ) < |dx| + |dy| + 1 := by positivity
  obtain ⟨n, hn⟩ := exists_pow_lt_of_lt_one
    (show (0 : ℚ) < 2 / 10 / (f * (|dx| + |dy| + 1)) from
      div_pos (by norm_num) (mul_pos hf0 hsum))
    (show 1 - f < 1 by linarith)
  have h1mf0 : (0 : ℚ) ≤ 1 - f := by linarith
  have hpow0 : (0 : ℚ) ≤ (1 - f) ^ n := pow_nonneg h1mf0 n
  have hmain : ∀ a : ℚ, |a| ≤ |dx| + |dy| →
      |a| * (1 - f) ^ n * f < 2 / 10 := by
    intro a ha
    have h1 : |a| * (1 - f) ^ n * f ≤ (|dx| + |dy| + 1) * ((1 - f) ^ n * f) := by
      calc |a| * (1 - f) ^ n * f = |a| * ((1 - f) ^ n * f) := by ring
        _ ≤ (|dx| + |dy| + 1) * ((1 - f) ^ n * f) :=
            mul_le_mul_of_nonneg_right (by linarith)
              (mul_nonneg hpow0 hf0.le)
    have h2 : (|dx| + |dy| + 1) * ((1 - f) ^ n * f) <
        (|dx| + |dy| + 1) * (2 / 10 / (f * (|dx| + |dy| + 1)) * f) :=
      mul_lt_mul_of_pos_left (mul_lt_mul_of_pos_right hn hf0) hsum
    have h3 : (|dx| + |dy| + 1) * (2 / 10 / (f * (|dx| + |dy| + 1)) * f) =
        2 / 10 := by
      field_simp
      ring
    linarith
  refine ⟨n + 1, ?_⟩
  exact decayInv_zero_next f dx dy (t0 + n * STANDARD_FRAME_TIME) n len
    (simulate len t0 n s1) hf0 hf1 (hind n)
    (hmain dx (by linarith [abs_nonneg dy]))
    (hmain dy (by linarith [abs_nonneg dx]))

/-- C5 witness: friction `1/2`, a `scrollBy({left: 100})` from rest. -/
theorem scrollBy_motion_terminates_witness :
    (0 : ℚ) < 1 / 2 ∧ (1 / 2 : ℚ) < 1 ∧
    ∃ N, (simulate ⟨1000, 0⟩ 0 N
      (scrollBy { left := some 100, top := some 0, friction := some (1 / 2) }
        (initialState (some (1 / 5)) false none ⟨0, 0⟩))).scrolling = none :=
  ⟨by norm_num, by norm_num,
   scrollBy_motion_terminates (1 / 2) 100 0 (1 / 5) 0 0 0 ⟨1000, 0⟩
     (by norm_num) (by norm_num)⟩

end ElementScroller
